import Mathlib

/-!
Verification of the DeepEmpower pipeline core (Go repository) against its
natural-language specification.

The embedding models, faithfully to the Go source:
  * the data model of `internal/models/types.go`,
  * the model bridge of `internal/modelbridge/bridge.go` (panic recovery,
    stream filtering relay),
  * the pipeline stages of `internal/orchestrator/processors.go` and the
    engine loop of `internal/orchestrator/pipeline.go`,
  * the per-backend request adaptation of `internal/clients/reasoner.go`
    (disabled-parameter removal by JSON round-trip) and of the
    openai-based `NormalClient` (default-parameter injection).

Go `float32` parameters are modelled as `Rat`: the code performs no
arithmetic on them, only zero tests and copies, so rounding is irrelevant.
Channels are modelled as the finite list of values sent before the channel
closed, in send order; goroutine relays become functions on those lists.
Effects against the two backends are modelled by a `World` record giving
the behaviour of each collaborator; stages additionally return the list of
backend calls they performed, tagged with the stage name, so that claims
about "client never invoked" are statable.
-/

namespace DeepEmpower

/-- Message shape from `internal/models/types.go` (`ChatCompletionMessage`). -/
structure ChatCompletionMessage where
  role : String
  content : String
  reasoningContent : List String
deriving Repr, DecidableEq

/-- Request shape from `internal/models/types.go` (`ChatCompletionRequest`).
`temperature` (Go `float32`) is a rational; `maxTokens` (Go `int`) an integer. -/
structure ChatCompletionRequest where
  model : String
  messages : List ChatCompletionMessage
  stream : Bool
  requestID : String
  temperature : Rat
  maxTokens : Int
deriving Repr, DecidableEq

/-- Choice shape from `internal/models/types.go` (`ChatCompletionChoice`). -/
structure ChatCompletionChoice where
  message : ChatCompletionMessage
  finishReason : String
deriving Repr, DecidableEq

/-- Response shape from `internal/models/types.go` (`ChatCompletionResponse`). -/
structure ChatCompletionResponse where
  id : String
  object : String
  created : Int
  model : String
  choices : List ChatCompletionChoice
deriving Repr, DecidableEq

/-- Outcome of one Go call that returns `(value, error)` but may also panic.
`ok` is a non-nil value with nil error; `err` is a nil value with the given
error message; `panicked` is an escaping runtime fault (uncaught panic). -/
inductive StepRes (α : Type) where
  | ok (a : α)
  | err (e : String)
  | panicked (msg : String)
deriving Repr, DecidableEq

/-- True when the outcome is an uncaught runtime fault. -/
def StepRes.isFault {α : Type} : StepRes α → Bool
  | .panicked _ => true
  | _ => false

/-- True when the outcome is a successful value. -/
def StepRes.isOk {α : Type} : StepRes α → Bool
  | .ok _ => true
  | _ => false

/-- Panic-recovery boundary of `ModelBridge.CallNormal`
(`internal/modelbridge/bridge.go` lines 38-61): runs the Normal client's
`Complete` and converts any panic raised during the call into the error
`runtime error: <v>` with a nil response (the deferred `recover` sets
`resp = nil`). Errors and successes pass through unchanged. -/
def ModelBridge.CallNormal (clientComplete : ChatCompletionRequest → StepRes ChatCompletionResponse)
    (req : ChatCompletionRequest) : StepRes ChatCompletionResponse :=
  match clientComplete req with
  | .panicked m => .err ("runtime error: " ++ m)
  | .err e => .err e
  | .ok r => .ok r

/-- Panic-recovery boundary of `ModelBridge.CallReasoner`
(`internal/modelbridge/bridge.go` lines 64-87); same shape as `CallNormal`
but against the Reasoner client. -/
def ModelBridge.CallReasoner (clientComplete : ChatCompletionRequest → StepRes ChatCompletionResponse)
    (req : ChatCompletionRequest) : StepRes ChatCompletionResponse :=
  match clientComplete req with
  | .panicked m => .err ("runtime error: " ++ m)
  | .err e => .err e
  | .ok r => .ok r

/-- The filtering relay goroutine of `ModelBridge.CallReasonerStream`
(`internal/modelbridge/bridge.go` lines 103-137): consumes the internal
channel (a list of possibly-nil responses, in arrival order) and forwards
to the external channel only those responses that are non-nil, have at
least one choice, and whose first choice has `len(Content) > 0` or
`len(ReasoningContent) > 0`. The external channel closes when the input
list is exhausted (the `defer close(filteredChan)`), which here is the end
of the returned list. -/
def ModelBridge.filterRelay : List (Option ChatCompletionResponse) → List ChatCompletionResponse
  | [] => []
  | none :: rest => ModelBridge.filterRelay rest
  | some r :: rest =>
    match r.choices with
    | [] => ModelBridge.filterRelay rest
    | c0 :: _ =>
      if 0 < c0.message.content.length || 0 < c0.message.reasoningContent.length then
        r :: ModelBridge.filterRelay rest
      else
        ModelBridge.filterRelay rest

/-- The claim-side forwarding condition for one raw delta: non-nil, at
least one choice, and the first choice carries non-empty visible content
or a non-empty reasoning segment list. -/
def forwardedDelta : Option ChatCompletionResponse → Bool
  | none => false
  | some r =>
    match r.choices with
    | [] => false
    | c0 :: _ => decide (c0.message.content ≠ "") || decide (c0.message.reasoningContent ≠ [])

/-- All reasoning segments emitted by the deep-model stream, in arrival
order: for each non-nil delta with at least one choice, the reasoning
segment list of its first choice, concatenated. Deltas without choices
emit no message and hence no segments. -/
def emittedReasoningSegments : List (Option ChatCompletionResponse) → List String
  | [] => []
  | none :: rest => emittedReasoningSegments rest
  | some r :: rest =>
    match r.choices with
    | [] => emittedReasoningSegments rest
    | c0 :: _ => c0.message.reasoningContent ++ emittedReasoningSegments rest

/-- Visible content of the most recently observed delta of a stream (the
last element of the list), or `""` when no delta carries a message. -/
def lastVisibleContent (l : List ChatCompletionResponse) : String :=
  match l.getLast? with
  | none => ""
  | some r =>
    match r.choices with
    | [] => ""
    | c0 :: _ => c0.message.content

/-- The `for resp := range respChan` loop of `ReasonerEngine.Execute`
(`internal/orchestrator/processors.go` lines 131-146): for each delta with
at least one choice, appends its first choice's reasoning segments to the
chain when that list is non-empty, and overwrites `lastContent` with the
first choice's visible content (last-write-wins). Returns the final chain
and `lastContent`. -/
def ReasonerEngine.streamLoop : List ChatCompletionResponse → List String → String → List String × String
  | [], chain, last => (chain, last)
  | r :: rest, chain, last =>
    match r.choices with
    | [] => ReasonerEngine.streamLoop rest chain last
    | c0 :: _ =>
      let chain' := if 0 < c0.message.reasoningContent.length then chain ++ c0.message.reasoningContent else chain
      ReasonerEngine.streamLoop rest chain' c0.message.content

/-- Template binding values: the stages bind strings (`UserInput`,
`StructuredInput`, `IntermediateResult`) and one string list
(`ReasoningChain`). -/
inductive TmplValue where
  | str (s : String)
  | strList (l : List String)
deriving Repr, DecidableEq

/-- One backend call performed during a pipeline run, tagged with the name
of the stage that performed it (ghost instrumentation; the Go code does
not pass stage names to the bridge, the tag records the call site). -/
inductive CallEvent where
  | normal (stage : String) (req : ChatCompletionRequest)
  | reasonerStream (stage : String) (req : ChatCompletionRequest)
deriving Repr, DecidableEq

/-- The stage tag of a call event. -/
def CallEvent.stageName : CallEvent → String
  | .normal s _ => s
  | .reasonerStream s _ => s

/-- Behaviour of the collaborators of one pipeline run.
`parseTmpl`/`execTmpl` model Go `text/template` `Parse` and `Execute`
(external collaborator, deterministic for a fixed template and bindings);
`normal` is the Normal client's `Complete`, indexed by the number of prior
`Complete` calls in the run (so stateful test mocks such as the
`attemptCount` closure of the repository's integration test are
representable); `reasonerRaw` is the Reasoner client's `CompleteStream`:
either an establishment error or the list of deltas the internal channel
delivers before closing. `cancelAt = some k` means the run's context is
observed cancelled at every per-stage check with index `≥ k`
(cancellation is permanent); `ctxErrMsg` is `ctx.Err()`'s message.
`now` feeds the request-id timestamp. -/
structure World where
  parseTmpl : String → Except String Unit
  execTmpl : String → List (String × TmplValue) → Except String String
  normal : Nat → ChatCompletionRequest → StepRes ChatCompletionResponse
  reasonerRaw : ChatCompletionRequest → StepRes (List (Option ChatCompletionResponse))
  cancelAt : Option Nat
  ctxErrMsg : String
  now : Int

/-- The pipeline's working state (`internal/orchestrator/pipeline.go`,
`Payload`). The `Error` field and the mutex are never used by the modelled
single-threaded paths and are omitted. -/
structure Payload where
  originalRequest : ChatCompletionRequest
  reasoningChain : List String
  intermContent : String
  finalContent : String
deriving Repr, DecidableEq

/-- Prompt templates from configuration (`config.PromptsConfig`). -/
structure PromptsConfig where
  preProcess : String
  reasoning : String
  postProcess : String
deriving Repr, DecidableEq

/-- The request built by `NormalPreprocessor.Execute`
(`internal/orchestrator/processors.go` lines 54-61): model copied from the
original request, a system message holding the rendered template and the
original request's last message's content as the user message. -/
def NormalPreprocessor.buildRequest (data : Payload) (rendered lastUserContent : String) :
    ChatCompletionRequest :=
  { model := data.originalRequest.model
    messages := [{ role := "system", content := rendered, reasoningContent := [] },
                 { role := "user", content := lastUserContent, reasoningContent := [] }]
    stream := false
    requestID := ""
    temperature := 0
    maxTokens := 0 }

/-- `NormalPreprocessor.Execute` (`internal/orchestrator/processors.go`
lines 36-73): parse the template; bind `UserInput` to the content of
`Messages[len(Messages)-1]` of the original request (an out-of-range
access, hence a runtime fault, when the message list is empty); execute
the template; call the Normal model through the bridge; store the first
choice's content (an out-of-range fault when the response has no choices)
into `intermContent`. Takes and returns the running count of Normal
`Complete` calls and reports the backend calls performed. -/
def NormalPreprocessor.Execute (w : World) (tmpl : String) (n : Nat) (data : Payload) :
    StepRes Payload × Nat × List CallEvent :=
  match w.parseTmpl tmpl with
  | .error e => (.err ("parse template: " ++ e), n, [])
  | .ok () =>
    match data.originalRequest.messages.getLast? with
    | none => (.panicked "index out of range [-1]", n, [])
    | some lastMsg =>
      match w.execTmpl tmpl [("UserInput", .str lastMsg.content)] with
      | .error e => (.err ("execute template: " ++ e), n, [])
      | .ok rendered =>
        let req := NormalPreprocessor.buildRequest data rendered lastMsg.content
        match ModelBridge.CallNormal (w.normal n) req with
        | .panicked m => (.panicked m, n + 1, [.normal "normal_preprocessor" req])
        | .err e => (.err ("model call: " ++ e), n + 1, [.normal "normal_preprocessor" req])
        | .ok resp =>
          match resp.choices with
          | [] => (.panicked "index out of range [0] with length 0", n + 1, [.normal "normal_preprocessor" req])
          | c0 :: _ => (.ok { data with intermContent := c0.message.content }, n + 1,
                        [.normal "normal_preprocessor" req])

/-- The request built by `ReasonerEngine.Execute`
(`internal/orchestrator/processors.go` lines 113-121): model copied from
the original request, system message holding the rendered template, user
message holding the intermediate content, stream flag set. -/
def ReasonerEngine.buildRequest (data : Payload) (rendered : String) : ChatCompletionRequest :=
  { model := data.originalRequest.model
    messages := [{ role := "system", content := rendered, reasoningContent := [] },
                 { role := "user", content := data.intermContent, reasoningContent := [] }]
    stream := true
    requestID := ""
    temperature := 0
    maxTokens := 0 }

/-- `ReasonerEngine.Execute` (`internal/orchestrator/processors.go` lines
96-152) composed with `ModelBridge.CallReasonerStream`
(`internal/modelbridge/bridge.go` lines 90-140): parse and execute the
reasoning template over `StructuredInput := intermContent`; the bridge
forces `stream = true`, opens the raw stream (failing fast on an
establishment error) and relays the filtered deltas; the engine's loop
accumulates the reasoning chain and the last visible content, then
overwrites `intermContent` with the latter. -/
def ReasonerEngine.Execute (w : World) (tmpl : String) (n : Nat) (data : Payload) :
    StepRes Payload × Nat × List CallEvent :=
  match w.parseTmpl tmpl with
  | .error e => (.err ("parse template: " ++ e), n, [])
  | .ok () =>
    match w.execTmpl tmpl [("StructuredInput", .str data.intermContent)] with
    | .error e => (.err ("execute template: " ++ e), n, [])
    | .ok rendered =>
      let req := ReasonerEngine.buildRequest data rendered
      match w.reasonerRaw { req with stream := true } with
      | .panicked m => (.panicked m, n, [.reasonerStream "reasoner_engine" req])
      | .err e => (.err ("model call: " ++ e), n, [.reasonerStream "reasoner_engine" req])
      | .ok raws =>
        let filtered := ModelBridge.filterRelay raws
        let res := ReasonerEngine.streamLoop filtered data.reasoningChain ""
        (.ok { data with reasoningChain := res.1, intermContent := res.2 }, n,
         [.reasonerStream "reasoner_engine" req])

/-- The request built by `NormalPostprocessor.Execute`
(`internal/orchestrator/processors.go` lines 191-198). -/
def NormalPostprocessor.buildRequest (data : Payload) (rendered : String) : ChatCompletionRequest :=
  { model := data.originalRequest.model
    messages := [{ role := "system", content := rendered, reasoningContent := [] },
                 { role := "user", content := data.intermContent, reasoningContent := [] }]
    stream := false
    requestID := ""
    temperature := 0
    maxTokens := 0 }

/-- `NormalPostprocessor.Execute` (`internal/orchestrator/processors.go`
lines 173-211): render the post-process template over the reasoning chain
and intermediate result, call the Normal model, store the first choice's
content (out-of-range fault when the response has no choices) into
`finalContent`. -/
def NormalPostprocessor.Execute (w : World) (tmpl : String) (n : Nat) (data : Payload) :
    StepRes Payload × Nat × List CallEvent :=
  match w.parseTmpl tmpl with
  | .error e => (.err ("parse template: " ++ e), n, [])
  | .ok () =>
    match w.execTmpl tmpl [("ReasoningChain", .strList data.reasoningChain),
                           ("IntermediateResult", .str data.intermContent)] with
    | .error e => (.err ("execute template: " ++ e), n, [])
    | .ok rendered =>
      let req := NormalPostprocessor.buildRequest data rendered
      match ModelBridge.CallNormal (w.normal n) req with
      | .panicked m => (.panicked m, n + 1, [.normal "normal_postprocessor" req])
      | .err e => (.err ("model call: " ++ e), n + 1, [.normal "normal_postprocessor" req])
      | .ok resp =>
        match resp.choices with
        | [] => (.panicked "index out of range [0] with length 0", n + 1, [.normal "normal_postprocessor" req])
        | c0 :: _ => (.ok { data with finalContent := c0.message.content }, n + 1,
                      [.normal "normal_postprocessor" req])

/-- Outcome of one pipeline run: the Go `(resp, err)` pair of
`HybridPipeline.Execute`, plus the uncaught-fault case. -/
inductive PipelineOutcome where
  | completed (resp : ChatCompletionResponse)
  | failed (e : String)
  | panicked (msg : String)
deriving Repr, DecidableEq

/-- Whether the run's context is observed cancelled at the per-stage check
with index `i` (`select` on `ctx.Done()` before stage `i`; a ready `Done`
case is always preferred over `default`). -/
def cancelledBefore (w : World) (i : Nat) : Bool :=
  match w.cancelAt with
  | none => false
  | some k => k ≤ i

/-- Request-id assignment at the start of `HybridPipeline.Execute`
(`internal/orchestrator/pipeline.go` lines 108-110): when absent the id is
generated from the current time. -/
def HybridPipeline.assignRequestID (w : World) (req : ChatCompletionRequest) : ChatCompletionRequest :=
  if req.requestID = "" then { req with requestID := "req_" ++ toString w.now } else req

/-- The fresh payload wrapping the request
(`internal/orchestrator/pipeline.go` lines 115-118). -/
def HybridPipeline.initPayload (w : World) (req : ChatCompletionRequest) : Payload :=
  { originalRequest := HybridPipeline.assignRequestID w req
    reasoningChain := []
    intermContent := ""
    finalContent := "" }

/-- Final response assembly (`HybridPipeline.buildResponse`,
`internal/orchestrator/pipeline.go` lines 142-157): one assistant choice
carrying the final content and the reasoning chain, finish reason `stop`. -/
def HybridPipeline.buildResponse (p : Payload) : ChatCompletionResponse :=
  { id := ""
    object := ""
    created := 0
    model := ""
    choices := [{ message := { role := "assistant", content := p.finalContent,
                               reasoningContent := p.reasoningChain },
                  finishReason := "stop" }] }

/-- `HybridPipeline.Execute` (`internal/orchestrator/pipeline.go` lines
106-139): assign the request id, initialize the payload, then run the
three stages strictly in order. Before each stage the context is checked;
if cancelled, `ctx.Err()` is returned at once. A stage error is returned
wrapped as `stage <name> failed: <err>`; there is no retry of any stage.
The list of backend calls performed is returned alongside. -/
def HybridPipeline.Execute (w : World) (prompts : PromptsConfig) (req : ChatCompletionRequest) :
    PipelineOutcome × List CallEvent :=
  let data0 := HybridPipeline.initPayload w req
  if cancelledBefore w 0 then (.failed w.ctxErrMsg, [])
  else
    match NormalPreprocessor.Execute w prompts.preProcess 0 data0 with
    | (.err e, _, ev1) => (.failed ("stage normal_preprocessor failed: " ++ e), ev1)
    | (.panicked m, _, ev1) => (.panicked m, ev1)
    | (.ok d1, n1, ev1) =>
      if cancelledBefore w 1 then (.failed w.ctxErrMsg, ev1)
      else
        match ReasonerEngine.Execute w prompts.reasoning n1 d1 with
        | (.err e, _, ev2) => (.failed ("stage reasoner_engine failed: " ++ e), ev1 ++ ev2)
        | (.panicked m, _, ev2) => (.panicked m, ev1 ++ ev2)
        | (.ok d2, n2, ev2) =>
          if cancelledBefore w 2 then (.failed w.ctxErrMsg, ev1 ++ ev2)
          else
            match NormalPostprocessor.Execute w prompts.postProcess n2 d2 with
            | (.err e, _, ev3) => (.failed ("stage normal_postprocessor failed: " ++ e), ev1 ++ ev2 ++ ev3)
            | (.panicked m, _, ev3) => (.panicked m, ev1 ++ ev2 ++ ev3)
            | (.ok d3, _, ev3) => (.completed (HybridPipeline.buildResponse d3), ev1 ++ ev2 ++ ev3)

/-- A Go `interface{}` value stored in a configuration map: the dynamic
types the adapter's type switch distinguishes are `float64`, `int`, and
anything else. -/
inductive GoValue where
  | vFloat (q : Rat)
  | vInt (n : Int)
  | vOther
deriving Repr, DecidableEq

/-- `clients.ModelClientConfig` (`internal/clients/types.go`). The Go
`map[string]interface{}` of default parameters is modelled as an
association list; a Go map has pairwise-distinct keys and its iteration
order is irrelevant here because each recognised key updates its own
field. -/
structure ModelClientConfig where
  apiBase : String
  model : String
  disabledParams : List String
  defaultParams : List (String × GoValue)
deriving Repr, DecidableEq

/-- Message shape of the external `go-openai` request (role and content;
the conversion loops of both clients copy only these two fields). -/
structure OpenAIMessage where
  role : String
  content : String
deriving Repr, DecidableEq

/-- The fields of `openai.ChatCompletionRequest` that the repository's
code reads or writes. Fields never assigned keep their Go zero value. -/
structure OpenAIRequest where
  model : String
  messages : List OpenAIMessage
  stream : Bool
  temperature : Rat
  maxTokens : Int
deriving Repr, DecidableEq

/-- `convertMessages` of the openai-based `NormalClient`: copies role and
content of every message (reasoning segments are not part of the outgoing
wire format). -/
def convertMessages (msgs : List ChatCompletionMessage) : List OpenAIMessage :=
  msgs.map (fun m => { role := m.role, content := m.content })

/-- `applyDefaultParams` of the openai-based `NormalClient`
(`src/unnamed/part_000` lines 171-184): for each configured (name, value)
pair, a type switch sets `Temperature` when the name is `temperature` and
the value is a `float64`, and `MaxTokens` when the name is `max_tokens`
and the value is an `int`; all other names or dynamic types are ignored. -/
def applyDefaultParamsStep (r : OpenAIRequest) (kv : String × GoValue) : OpenAIRequest :=
  if kv.1 = "temperature" then
    match kv.2 with
    | .vFloat f => { r with temperature := f }
    | _ => r
  else if kv.1 = "max_tokens" then
    match kv.2 with
    | .vInt n => { r with maxTokens := n }
    | _ => r
  else r

/-- The `for k, v := range params` loop of `applyDefaultParams`. -/
def applyDefaultParams (req : OpenAIRequest) (params : List (String × GoValue)) : OpenAIRequest :=
  params.foldl applyDefaultParamsStep req

/-- `NormalClient.prepareRequest` of the openai-based client
(`src/unnamed/part_000` lines 117-141): substitute the configured model
when the caller's is empty, convert the messages, apply the configured
default parameters, then overwrite temperature and max-tokens with the
caller's values when these are non-zero. -/
def NormalClientOpenAI.prepareRequest (cfg : ModelClientConfig) (req : ChatCompletionRequest) :
    OpenAIRequest :=
  let model := if req.model = "" then cfg.model else req.model
  let r0 : OpenAIRequest :=
    { model := model, messages := convertMessages req.messages, stream := false,
      temperature := 0, maxTokens := 0 }
  let r1 := applyDefaultParams r0 cfg.defaultParams
  let r2 := if req.temperature ≠ 0 then { r1 with temperature := req.temperature } else r1
  if req.maxTokens ≠ 0 then { r2 with maxTokens := req.maxTokens } else r2

/-- Result of the HTTP exchange performed by the http-based
`NormalClient.Complete` (`internal/clients/normal.go`): a transport
failure, or a status code together with the decoded body (`Except` error
when the body fails to decode as a `ChatCompletionResponse`). -/
inductive HTTPResult where
  | transportErr (msg : String)
  | response (statusCode : Int) (body : Except String ChatCompletionResponse)

/-- The http-based `NormalClient.Complete` (`internal/clients/normal.go`
lines 26-59): a transport error, a non-200 status and a decode failure
each surface as an error; otherwise the decoded response is returned
unchanged — in particular a decoded response with an empty `choices`
list is returned successfully, with no protocol check. -/
def NormalClientHTTP.Complete (hr : HTTPResult) : StepRes ChatCompletionResponse :=
  match hr with
  | .transportErr m => .err ("send request: " ++ m)
  | .response code body =>
    if code = 200 then
      match body with
      | .error m => .err ("decode response: " ++ m)
      | .ok r => .ok r
    else .err ("unexpected status code: " ++ toString code)

/-- The JSON object produced by `json.Marshal` of a
`ChatCompletionRequest`, field presence included: `model`, `messages` and
`request_id` are always emitted; `stream`, `temperature` and `max_tokens`
carry `omitempty` and are present only when non-zero. -/
structure ReqJSON where
  model : Option String
  messages : Option (List ChatCompletionMessage)
  stream : Option Bool
  requestID : Option String
  temperature : Option Rat
  maxTokens : Option Int
deriving Repr, DecidableEq

/-- `json.Marshal` of a request, per the struct tags of
`internal/models/types.go`. -/
def marshalReq (req : ChatCompletionRequest) : ReqJSON :=
  { model := some req.model
    messages := some req.messages
    stream := if req.stream then some req.stream else none
    requestID := some req.requestID
    temperature := if req.temperature ≠ 0 then some req.temperature else none
    maxTokens := if req.maxTokens ≠ 0 then some req.maxTokens else none }

/-- The `delete(reqMap, param)` loop of `filterDisabledParams`: removes
every disabled key from the JSON object. -/
def deleteParams (j : ReqJSON) (disabled : List String) : ReqJSON :=
  { model := if disabled.contains "model" then none else j.model
    messages := if disabled.contains "messages" then none else j.messages
    stream := if disabled.contains "stream" then none else j.stream
    requestID := if disabled.contains "request_id" then none else j.requestID
    temperature := if disabled.contains "temperature" then none else j.temperature
    maxTokens := if disabled.contains "max_tokens" then none else j.maxTokens }

/-- The final `json.Unmarshal(data, req)` of `filterDisabledParams`: Go's
`Unmarshal` into an existing struct only assigns fields whose keys are
present in the JSON; a field whose key was deleted keeps its previous
value. -/
def unmarshalMerge (req : ChatCompletionRequest) (j : ReqJSON) : ChatCompletionRequest :=
  { model := j.model.getD req.model
    messages := j.messages.getD req.messages
    stream := j.stream.getD req.stream
    requestID := j.requestID.getD req.requestID
    temperature := j.temperature.getD req.temperature
    maxTokens := j.maxTokens.getD req.maxTokens }

/-- `ReasonerClient.filterDisabledParams` (`internal/clients/reasoner.go`
lines 34-48): marshal the request to a JSON map, delete the disabled
keys, marshal the map back and unmarshal it into the same request value. -/
def ReasonerClient.filterDisabledParams (cfg : ModelClientConfig) (req : ChatCompletionRequest) :
    ChatCompletionRequest :=
  unmarshalMerge req (deleteParams (marshalReq req) cfg.disabledParams)

/-- The `openai.ChatCompletionRequest` constructed by
`ReasonerClient.Complete` (`internal/clients/reasoner.go` lines 50-72) and
handed to the backend's chat client: after disabled-parameter removal and
model-name resolution, only the model and the converted messages are
copied; every other field keeps its zero value. -/
def ReasonerClient.buildOpenAIRequest (cfg : ModelClientConfig) (req : ChatCompletionRequest) :
    OpenAIRequest :=
  let req1 := ReasonerClient.filterDisabledParams cfg req
  let model := if req1.model = "" then cfg.model else req1.model
  { model := model, messages := convertMessages req1.messages, stream := false,
    temperature := 0, maxTokens := 0 }

/-- Whether the outgoing openai request has the named wire field set to a
value other than its Go zero value; names that are not fields of the
request are never set. -/
def paramIsSet (r : OpenAIRequest) (name : String) : Bool :=
  if name = "model" then decide (r.model ≠ "")
  else if name = "messages" then decide (r.messages ≠ [])
  else if name = "stream" then r.stream
  else if name = "temperature" then decide (r.temperature ≠ 0)
  else if name = "max_tokens" then decide (r.maxTokens ≠ 0)
  else false

/-- A response with one assistant choice, as the repository's mocks build
them. -/
def mkResponse (content : String) (reasoning : List String) : ChatCompletionResponse :=
  { id := "", object := "", created := 0, model := "",
    choices := [{ message := { role := "assistant", content := content,
                               reasoningContent := reasoning },
                  finishReason := "" }] }

/-- A decoded response whose `choices` list is empty. -/
def emptyChoicesResponse : ChatCompletionResponse :=
  { id := "", object := "", created := 0, model := "", choices := [] }

/-- The three prompt templates used for concrete runs. -/
def prompts0 : PromptsConfig :=
  { preProcess := "PRE", reasoning := "REASON", postProcess := "POST" }

/-- A request with one user message, as in the repository's tests; the
caller's model field is `user-model`, distinct from the configured
fast-model identifier `gpt-3.5-turbo` of `configs/models.yaml`. -/
def reqSimple : ChatCompletionRequest :=
  { model := "user-model"
    messages := [{ role := "user", content := "What is 2+2?", reasoningContent := [] }]
    stream := false, requestID := "r1", temperature := 0, maxTokens := 0 }

/-- A request whose message list is empty. -/
def reqNoMessages : ChatCompletionRequest :=
  { model := "user-model", messages := [], stream := false, requestID := "r2",
    temperature := 0, maxTokens := 0 }

/-- A collaborator behaviour where templates parse and render to
themselves, the fast model always answers `structured output`, and the
deep stream delivers two deltas carrying contents `r1`, `r2` and reasoning
segments `s1`, `s2`; the context is never cancelled. -/
def steadyWorld : World :=
  { parseTmpl := fun _ => .ok ()
    execTmpl := fun t _ => .ok t
    normal := fun _ _ => .ok (mkResponse "structured output" [])
    reasonerRaw := fun _ => .ok [some (mkResponse "r1" ["s1"]), some (mkResponse "r2" ["s2"])]
    cancelAt := none
    ctxErrMsg := "context canceled"
    now := 0 }

/-- Same collaborators as `steadyWorld` but with the context observed
cancelled from the second per-stage check on (cancelled after the
Preprocessor, before the Reasoner starts). -/
def cancelWorld1 : World :=
  { steadyWorld with cancelAt := some 1, ctxErrMsg := "context deadline exceeded" }

/-- The scenario of the repository's integration test `Recover from
temporary failure`: the fast model fails its first `Complete` call with
the error `temporary error` and succeeds from the second call on with
`recovered response`; the deep stream delivers one delta. -/
def retryWorld : World :=
  { parseTmpl := fun _ => .ok ()
    execTmpl := fun t _ => .ok t
    normal := fun n _ =>
      if n = 0 then .err "temporary error"
      else .ok (mkResponse "recovered response" [])
    reasonerRaw := fun _ => .ok [some (mkResponse "reasoning response" ["recovery step"])]
    cancelAt := none
    ctxErrMsg := "context canceled"
    now := 0 }

/-- A collaborator behaviour where the fast backend answers HTTP 200 with
the body `(choices: [])`, decoded successfully, so the http-based
`NormalClient.Complete` returns the empty-choices response with no error. -/
def emptyChoicesWorld : World :=
  { parseTmpl := fun _ => .ok ()
    execTmpl := fun t _ => .ok t
    normal := fun _ _ => NormalClientHTTP.Complete (.response 200 (.ok emptyChoicesResponse))
    reasonerRaw := fun _ => .ok []
    cancelAt := none
    ctxErrMsg := "context canceled"
    now := 0 }

/-- The payload at the start of a `steadyWorld` run over `reqSimple`. -/
def c9Payload : Payload := HybridPipeline.initPayload steadyWorld reqSimple

/-- The request the Preprocessor builds in that run. -/
def c9Request : ChatCompletionRequest :=
  NormalPreprocessor.buildRequest c9Payload "PRE" "What is 2+2?"

/-- A payload as it stands when the Reasoner stage starts in a
`steadyWorld` run: empty reasoning chain, intermediate content produced
by the Preprocessor. -/
def c3Payload : Payload :=
  { originalRequest := reqSimple, reasoningChain := [],
    intermContent := "structured output", finalContent := "" }

/-- The Reasoner backend configuration of `configs/models.yaml`. -/
def reasonerCfg : ModelClientConfig :=
  { apiBase := "http://localhost:8002/v1", model := "gpt-4",
    disabledParams := ["temperature", "presence_penalty", "frequency_penalty"],
    defaultParams := [] }

/-- The Normal backend configuration of `configs/models.yaml`, its default
parameters given with the dynamic types Go's YAML loader produces. -/
def normalCfg : ModelClientConfig :=
  { apiBase := "http://localhost:8001/v1", model := "gpt-3.5-turbo",
    disabledParams := [],
    defaultParams := [("temperature", GoValue.vFloat (7 / 10)), ("max_tokens", GoValue.vInt 1000)] }

/-- A caller request that sets `temperature` but leaves `max_tokens`
unset. -/
def reqWithTemp : ChatCompletionRequest :=
  { model := "user-model"
    messages := [{ role := "user", content := "hello", reasoningContent := [] }]
    stream := false, requestID := "r3", temperature := 1, maxTokens := 0 }

/-- A string has positive length exactly when it is non-empty. -/
theorem string_length_pos (s : String) : 0 < s.length ↔ s ≠ "" := by
  rcases s with ⟨l⟩
  constructor
  · intro h hs
    have hl : l = [] := congrArg String.data hs
    subst hl
    exact absurd h (by decide)
  · intro h
    refine List.length_pos.mpr (fun hl => h ?_)
    subst hl
    rfl

/-- The filtering relay forwards exactly the deltas satisfying the
forwarding condition, in order. -/
theorem filterRelay_eq_filterMap (raws : List (Option ChatCompletionResponse)) :
    ModelBridge.filterRelay raws
      = raws.filterMap (fun o => if forwardedDelta o then o else none) := by
  induction raws with
  | nil => rfl
  | cons o rest ih =>
    cases o with
    | none => simpa [ModelBridge.filterRelay, forwardedDelta] using ih
    | some r =>
      cases hc : r.choices with
      | nil => simpa [ModelBridge.filterRelay, forwardedDelta, hc] using ih
      | cons c0 cs =>
        by_cases h1 : c0.message.content = "" <;>
          by_cases h2 : c0.message.reasoningContent = [] <;>
            simp [ModelBridge.filterRelay, forwardedDelta, hc, h1, h2, ih,
              string_length_pos, List.length_pos]

/-- C2. For every delta received from the deep-model client's internal
channel, `CallReasonerStream`'s relay forwards it on the externally
visible filtered channel if and only if the delta is non-nil, has at least
one choice, and its first choice carries non-empty visible content or a
non-empty reasoning segment list; consequently the number of forwarded
deltas is at most the number of raw deltas. The external list ends exactly
when the internal list is drained (the relay is a total function of the
full internal list). -/
theorem C2_stream_filter (raws : List (Option ChatCompletionResponse)) :
    ModelBridge.filterRelay raws
      = raws.filterMap (fun o => if forwardedDelta o then o else none)
    ∧ (ModelBridge.filterRelay raws).length ≤ raws.length := by
  refine ⟨filterRelay_eq_filterMap raws, ?_⟩
  rw [filterRelay_eq_filterMap raws]
  exact List.length_filterMap_le _ _

/-- C8. Any panic raised during a `CallNormal` or `CallReasoner`
invocation is recovered at the Bridge boundary: the bridge result is never
an uncaught fault, and a client panic with message `m` becomes the plain
error return `runtime error: m` (with the nil response of the `err`
outcome). -/
theorem C8_bridge_recovers_faults
    (f g : ChatCompletionRequest → StepRes ChatCompletionResponse)
    (m : ChatCompletionRequest → String) (req : ChatCompletionRequest) :
    (ModelBridge.CallNormal f req).isFault = false
    ∧ (ModelBridge.CallReasoner g req).isFault = false
    ∧ ModelBridge.CallNormal (fun r => .panicked (m r)) req = .err ("runtime error: " ++ m req)
    ∧ ModelBridge.CallReasoner (fun r => .panicked (m r)) req = .err ("runtime error: " ++ m req) := by
  refine ⟨?_, ?_, rfl, rfl⟩
  · unfold ModelBridge.CallNormal
    cases f req <;> rfl
  · unfold ModelBridge.CallReasoner
    cases g req <;> rfl

/-- C1. Evidence that the engine performs no retry: in the exact scenario
of the repository's integration test `Recover from temporary failure`
(fast model fails its first `Complete` call with the error
`temporary error`, succeeds from the second call on), `Execute` reports
the run failed at the Preprocessor instead of retrying that stage once
and completing with the retried result, and the fast model is invoked
exactly once. -/
theorem C1_no_retry_on_temporary_error :
    (HybridPipeline.Execute retryWorld prompts0 reqSimple).1
      = .failed "stage normal_preprocessor failed: model call: temporary error"
    ∧ (HybridPipeline.Execute retryWorld prompts0 reqSimple).2
      = [CallEvent.normal "normal_preprocessor"
          (NormalPreprocessor.buildRequest (HybridPipeline.initPayload retryWorld reqSimple)
            "PRE" "What is 2+2?")] := by
  exact ⟨rfl, rfl⟩

/-- C6. Evidence that an empty-choices response is not surfaced as a
protocol error on the fast path: the http-based `NormalClient.Complete`
returns a decoded 200-response with zero choices successfully, and the
pipeline then dereferences the first choice in the Preprocessor, ending
the run in an uncaught index-out-of-range fault instead of an error
return. -/
theorem C6_empty_choices_is_dereferenced :
    NormalClientHTTP.Complete (.response 200 (.ok emptyChoicesResponse)) = .ok emptyChoicesResponse
    ∧ (HybridPipeline.Execute emptyChoicesWorld prompts0 reqSimple).1
      = .panicked "index out of range [0] with length 0" := by
  exact ⟨rfl, rfl⟩

/-- Request-id assignment never changes the message list. -/
theorem assignRequestID_messages (w : World) (req : ChatCompletionRequest) :
    (HybridPipeline.assignRequestID w req).messages = req.messages := by
  unfold HybridPipeline.assignRequestID
  split <;> rfl

/-- C10. For every request whose message list is empty, the
Preprocessor's `Execute` (and hence the pipeline's `Execute`, when the
context is not already cancelled at the first check) indexes the message
list at position `len-1`, an out-of-range access that is an uncaught
runtime fault rather than an error return; the only way to avoid it is
the unstated precondition that the message list is non-empty. (The
pre-process template is assumed to parse, as the deployed configuration
templates do; an unparsable template errors out before the access.) -/
theorem C10_empty_messages_faults (w : World) (prompts : PromptsConfig)
    (req : ChatCompletionRequest)
    (hparse : w.parseTmpl prompts.preProcess = .ok ())
    (hmsgs : req.messages = [])
    (hcancel : cancelledBefore w 0 = false) :
    (NormalPreprocessor.Execute w prompts.preProcess 0 (HybridPipeline.initPayload w req)).1
      = .panicked "index out of range [-1]"
    ∧ (HybridPipeline.Execute w prompts req).1 = .panicked "index out of range [-1]" := by
  have hlast : (HybridPipeline.initPayload w req).originalRequest.messages.getLast? = none := by
    simp [HybridPipeline.initPayload, assignRequestID_messages, hmsgs]
  have hpre : NormalPreprocessor.Execute w prompts.preProcess 0 (HybridPipeline.initPayload w req)
      = (.panicked "index out of range [-1]", 0, []) := by
    unfold NormalPreprocessor.Execute
    rw [hparse, hlast]
  refine ⟨by rw [hpre], ?_⟩
  unfold HybridPipeline.Execute
  rw [hcancel]
  simp only [Bool.false_eq_true, if_false, hpre]

/-- Witness for C10 at a concrete world and the empty-messages request. -/
theorem C10_empty_messages_faults_witness :
    (NormalPreprocessor.Execute steadyWorld prompts0.preProcess 0
        (HybridPipeline.initPayload steadyWorld reqNoMessages)).1
      = .panicked "index out of range [-1]"
    ∧ (HybridPipeline.Execute steadyWorld prompts0 reqNoMessages).1
      = .panicked "index out of range [-1]" :=
  C10_empty_messages_faults steadyWorld prompts0 reqNoMessages rfl rfl rfl

/-- Every backend call performed by the Preprocessor is tagged with that
stage's name. -/
theorem preprocessor_events_tagged (w : World) (tmpl : String) (n : Nat) (data : Payload) :
    ∀ e ∈ (NormalPreprocessor.Execute w tmpl n data).2.2,
      CallEvent.stageName e = "normal_preprocessor" := by
  intro e he
  unfold NormalPreprocessor.Execute at he
  cases hp : w.parseTmpl tmpl with
  | error m => rw [hp] at he; simp at he
  | ok u =>
    cases u
    rw [hp] at he
    cases hl : data.originalRequest.messages.getLast? with
    | none => rw [hl] at he; simp at he
    | some lastMsg =>
      rw [hl] at he
      simp only [] at he
      cases hx : w.execTmpl tmpl [("UserInput", TmplValue.str lastMsg.content)] with
      | error m => rw [hx] at he; simp at he
      | ok rendered =>
        rw [hx] at he
        simp only [] at he
        cases hcall : ModelBridge.CallNormal (w.normal n)
            (NormalPreprocessor.buildRequest data rendered lastMsg.content) with
        | panicked m =>
          rw [hcall] at he
          simp at he
          simp [he, CallEvent.stageName]
        | err msg =>
          rw [hcall] at he
          simp at he
          simp [he, CallEvent.stageName]
        | ok resp =>
          rw [hcall] at he
          simp only [] at he
          cases hch : resp.choices with
          | nil =>
            rw [hch] at he
            simp at he
            simp [he, CallEvent.stageName]
          | cons c0 cs =>
            rw [hch] at he
            simp at he
            simp [he, CallEvent.stageName]

/-- C7. If the run's context is observed cancelled before a stage starts
(`cancelAt = some k` with `k ≤ 1`, i.e. at latest before the Reasoner
stage, the stages before the cancellation point having succeeded), the
engine returns the context's cancellation error without running that
stage or any later one: every backend call of the run belongs to the
Preprocessor, so in particular neither the Reasoner's stream nor the
Postprocessor's Chat Client is ever invoked. -/
theorem C7_cancellation_stops_pipeline (w : World) (prompts : PromptsConfig)
    (req : ChatCompletionRequest) (k : Nat)
    (hc : w.cancelAt = some k) (hk : k ≤ 1)
    (hpre : k = 1 →
      (NormalPreprocessor.Execute w prompts.preProcess 0 (HybridPipeline.initPayload w req)).1.isOk
        = true) :
    (HybridPipeline.Execute w prompts req).1 = .failed w.ctxErrMsg
    ∧ ∀ e ∈ (HybridPipeline.Execute w prompts req).2,
        CallEvent.stageName e = "normal_preprocessor" := by
  interval_cases k
  · have h0 : cancelledBefore w 0 = true := by simp [cancelledBefore, hc]
    refine ⟨?_, ?_⟩ <;> simp [HybridPipeline.Execute, h0]
  · have h0 : cancelledBefore w 0 = false := by simp [cancelledBefore, hc]
    have h1 : cancelledBefore w 1 = true := by simp [cancelledBefore, hc]
    rcases hres : NormalPreprocessor.Execute w prompts.preProcess 0 (HybridPipeline.initPayload w req)
      with ⟨sr, m1, evs1⟩
    have hsr : sr.isOk = true := by simpa [hres] using hpre rfl
    cases sr with
    | ok d =>
      refine ⟨?_, ?_⟩
      · simp [HybridPipeline.Execute, h0, h1, hres]
      · intro e he
        have htag := preprocessor_events_tagged w prompts.preProcess 0 (HybridPipeline.initPayload w req)
        rw [hres] at htag
        have hev : (HybridPipeline.Execute w prompts req).2 = evs1 := by
          simp [HybridPipeline.Execute, h0, h1, hres]
        rw [hev] at he
        exact htag e he
    | err e2 => simp [StepRes.isOk] at hsr
    | panicked m2 => simp [StepRes.isOk] at hsr

/-- Witness for C7: with the collaborators of `steadyWorld` and the
context cancelled between the Preprocessor and the Reasoner, the engine
reports the cancellation error. -/
theorem C7_cancellation_stops_pipeline_witness :
    (HybridPipeline.Execute cancelWorld1 prompts0 reqSimple).1
      = .failed "context deadline exceeded" :=
  (C7_cancellation_stops_pipeline cancelWorld1 prompts0 reqSimple 1 rfl (by decide)
    (fun _ => rfl)).1

/-- C9 counterexample. In the current `processors.go` the Preprocessor
copies the model field from the original request: with the caller's model
`user-model` and the configured fast-model identifier `gpt-3.5-turbo`
(`configs/models.yaml`, never consulted by this stage), the request
handed to the fast backend carries `user-model`, not the configured
identifier, refuting the pinned-role-model part of the claim. -/
theorem C9_model_pinning_counterexample :
    (NormalPreprocessor.Execute steadyWorld "PRE" 0 c9Payload).2.2
      = [CallEvent.normal "normal_preprocessor" c9Request]
    ∧ c9Request.model = reqSimple.model
    ∧ ¬ c9Request.model = "gpt-3.5-turbo" := by
  exact ⟨rfl, rfl, by decide⟩

/-- C9 (amended). For every run where the pre-process template parses and
renders, the Preprocessor reads the last message of the original request,
renders the template with that text, builds a request consisting of a
system message holding the rendered template plus that same user message,
whose model field is copied from the original request's model field (the
configured fast-model identifier is not consulted), calls the fast model
once through the bridge, and writes the returned first choice's content
into `intermContent`. -/
theorem C9_preprocessor_behaviour (w : World) (tmpl : String) (n : Nat) (data : Payload)
    (lastMsg : ChatCompletionMessage) (rendered : String) (resp : ChatCompletionResponse)
    (c0 : ChatCompletionChoice) (cs : List ChatCompletionChoice)
    (hparse : w.parseTmpl tmpl = .ok ())
    (hlast : data.originalRequest.messages.getLast? = some lastMsg)
    (hexec : w.execTmpl tmpl [("UserInput", TmplValue.str lastMsg.content)] = .ok rendered)
    (hcall : w.normal n (NormalPreprocessor.buildRequest data rendered lastMsg.content) = .ok resp)
    (hchoices : resp.choices = c0 :: cs) :
    NormalPreprocessor.Execute w tmpl n data
      = (.ok { data with intermContent := c0.message.content }, n + 1,
         [CallEvent.normal "normal_preprocessor"
           (NormalPreprocessor.buildRequest data rendered lastMsg.content)])
    ∧ (NormalPreprocessor.buildRequest data rendered lastMsg.content).model
        = data.originalRequest.model
    ∧ (NormalPreprocessor.buildRequest data rendered lastMsg.content).messages
        = [{ role := "system", content := rendered, reasoningContent := [] },
           { role := "user", content := lastMsg.content, reasoningContent := [] }] := by
  refine ⟨?_, rfl, rfl⟩
  unfold NormalPreprocessor.Execute
  rw [hparse, hlast]
  simp only []
  rw [hexec]
  simp only []
  have hbridge : ModelBridge.CallNormal (w.normal n)
      (NormalPreprocessor.buildRequest data rendered lastMsg.content) = .ok resp := by
    unfold ModelBridge.CallNormal
    rw [hcall]
  rw [hbridge]
  simp only []
  rw [hchoices]

/-- Witness for C9's amended theorem in the concrete `steadyWorld` run. -/
theorem C9_preprocessor_behaviour_witness :
    NormalPreprocessor.Execute steadyWorld "PRE" 0 c9Payload
      = (.ok { c9Payload with intermContent := "structured output" }, 1,
         [CallEvent.normal "normal_preprocessor" c9Request]) :=
  (C9_preprocessor_behaviour steadyWorld "PRE" 0 c9Payload
    { role := "user", content := "What is 2+2?", reasoningContent := [] }
    "PRE" (mkResponse "structured output" [])
    { message := { role := "assistant", content := "structured output", reasoningContent := [] },
      finishReason := "" } []
    rfl rfl rfl rfl rfl).1

/-- The engine loop appends exactly the reasoning segments of the
processed deltas, in order, to the incoming chain; content-only deltas
(and deltas without choices) contribute nothing. -/
theorem streamLoop_chain (l : List ChatCompletionResponse) (chain : List String) (last : String) :
    (ReasonerEngine.streamLoop l chain last).1
      = chain ++ emittedReasoningSegments (l.map some) := by
  induction l generalizing chain last with
  | nil => simp [ReasonerEngine.streamLoop, emittedReasoningSegments]
  | cons r rest ih =>
    cases hc : r.choices with
    | nil => simp [ReasonerEngine.streamLoop, emittedReasoningSegments, hc, ih]
    | cons c0 cs =>
      by_cases h : c0.message.reasoningContent = [] <;>
        simp [ReasonerEngine.streamLoop, emittedReasoningSegments, hc, h, ih,
          List.length_pos, List.append_assoc]

/-- The filtering relay preserves the emitted reasoning segments: every
dropped delta carries no reasoning. -/
theorem filterRelay_segments (raws : List (Option ChatCompletionResponse)) :
    emittedReasoningSegments ((ModelBridge.filterRelay raws).map some)
      = emittedReasoningSegments raws := by
  induction raws with
  | nil => rfl
  | cons o rest ih =>
    cases o with
    | none => simp [ModelBridge.filterRelay, emittedReasoningSegments, ih]
    | some r =>
      cases hc : r.choices with
      | nil => simp [ModelBridge.filterRelay, emittedReasoningSegments, hc, ih]
      | cons c0 cs =>
        by_cases h1 : c0.message.content = "" <;>
          by_cases h2 : c0.message.reasoningContent = [] <;>
            simp [ModelBridge.filterRelay, emittedReasoningSegments, hc, h1, h2, ih,
              string_length_pos, List.length_pos]

/-- Every delta forwarded by the relay has at least one choice. -/
theorem filterRelay_choices_ne (raws : List (Option ChatCompletionResponse)) :
    ∀ r ∈ ModelBridge.filterRelay raws, r.choices ≠ [] := by
  induction raws with
  | nil => intro r hr; simp [ModelBridge.filterRelay] at hr
  | cons o rest ih =>
    intro r hr
    cases o with
    | none =>
      exact ih r (by simpa [ModelBridge.filterRelay] using hr)
    | some x =>
      cases hc : x.choices with
      | nil =>
        simp only [ModelBridge.filterRelay, hc] at hr
        exact ih r hr
      | cons c0 cs =>
        by_cases h1 : c0.message.content = "" <;> by_cases h2 : c0.message.reasoningContent = []
        · simp [ModelBridge.filterRelay, hc, h1, h2, string_length_pos, List.length_pos] at hr
          exact ih r hr
        all_goals
          simp [ModelBridge.filterRelay, hc, h1, h2, string_length_pos, List.length_pos] at hr
        all_goals
          rcases hr with hr | hr
          · rw [hr, hc]; simp
          · exact ih r hr

/-- The loop's final `lastContent` is the visible content of the last
delta when every processed delta has a choice; the initial value survives
only an empty stream. -/
theorem streamLoop_last_gen (l : List ChatCompletionResponse) (chain : List String) (last : String)
    (h : ∀ r ∈ l, r.choices ≠ []) :
    (ReasonerEngine.streamLoop l chain last).2
      = (match l.getLast? with
         | none => last
         | some r => (match r.choices with | [] => "" | c0 :: _ => c0.message.content)) := by
  induction l generalizing chain last with
  | nil => simp [ReasonerEngine.streamLoop]
  | cons r rest ih =>
    have hr : r.choices ≠ [] := h r (List.mem_cons_self _ _)
    cases hc : r.choices with
    | nil => exact absurd hc hr
    | cons c0 cs =>
      have hrest : ∀ x ∈ rest, x.choices ≠ [] := fun x hx => h x (List.mem_cons_of_mem _ hx)
      cases rest with
      | nil => simp [ReasonerEngine.streamLoop, hc]
      | cons y ys =>
        have step : ReasonerEngine.streamLoop (r :: y :: ys) chain last
            = ReasonerEngine.streamLoop (y :: ys)
                (if 0 < c0.message.reasoningContent.length then
                  chain ++ c0.message.reasoningContent else chain)
                c0.message.content := by
          conv_lhs => rw [ReasonerEngine.streamLoop]
          rw [hc]
        rw [step, ih _ _ hrest]
        cases hys : (y :: ys).getLast? with
        | none => simp at hys
        | some z => simp [List.getLast?_cons_cons, hys]

/-- Specialisation of `streamLoop_last_gen` to the engine's initial empty
`lastContent`. -/
theorem streamLoop_last (l : List ChatCompletionResponse) (chain : List String)
    (h : ∀ r ∈ l, r.choices ≠ []) :
    (ReasonerEngine.streamLoop l chain "").2 = lastVisibleContent l := by
  rw [streamLoop_last_gen l chain "" h]
  cases hl : l.getLast? <;> simp [lastVisibleContent, hl]

/-- C3. After a successful Reasoner stage started on an empty reasoning
chain, `reasoningChain` equals the concatenation, in arrival order, of
every non-empty reasoning segment emitted by the deep-model stream
(content-only deltas have no reasoning segments and contribute nothing),
and `intermContent` equals the visible content of the most recently
observed delta — the last delta of the filtered stream, last-write-wins
with no accumulation. The hypotheses state that the template parses and
renders, that the stream is established and delivers `raws`, that the
emitted segments are non-empty strings, and that at least one delta is
observed. -/
theorem C3_reasoner_aggregation (w : World) (tmpl : String) (n : Nat) (data : Payload)
    (rendered : String) (raws : List (Option ChatCompletionResponse))
    (hparse : w.parseTmpl tmpl = .ok ())
    (hexec : w.execTmpl tmpl [("StructuredInput", TmplValue.str data.intermContent)] = .ok rendered)
    (hstream : w.reasonerRaw { ReasonerEngine.buildRequest data rendered with stream := true }
        = .ok raws)
    (hchain0 : data.reasoningChain = [])
    (hseg : ∀ s ∈ emittedReasoningSegments raws, s ≠ "")
    (_hne : ModelBridge.filterRelay raws ≠ []) :
    (ReasonerEngine.Execute w tmpl n data).1
      = .ok { data with
              reasoningChain := (emittedReasoningSegments raws).filter (fun s => s != ""),
              intermContent := lastVisibleContent (ModelBridge.filterRelay raws) } := by
  have hbody : (ReasonerEngine.Execute w tmpl n data).1
      = .ok { data with
              reasoningChain :=
                (ReasonerEngine.streamLoop (ModelBridge.filterRelay raws) data.reasoningChain "").1,
              intermContent :=
                (ReasonerEngine.streamLoop (ModelBridge.filterRelay raws) data.reasoningChain "").2 } := by
    unfold ReasonerEngine.Execute
    rw [hparse]
    simp only []
    rw [hexec]
    simp only []
    rw [hstream]
  rw [hbody]
  have h1 : (ReasonerEngine.streamLoop (ModelBridge.filterRelay raws) data.reasoningChain "").1
      = (emittedReasoningSegments raws).filter (fun s => s != "") := by
    rw [streamLoop_chain, filterRelay_segments, hchain0, List.nil_append]
    symm
    refine List.filter_eq_self.mpr ?_
    intro s hs
    simpa using hseg s hs
  have h2 : (ReasonerEngine.streamLoop (ModelBridge.filterRelay raws) data.reasoningChain "").2
      = lastVisibleContent (ModelBridge.filterRelay raws) :=
    streamLoop_last _ _ (filterRelay_choices_ne raws)
  rw [h1, h2]

/-- Witness for C3: the two-delta stream of `steadyWorld` yields the
chain `s1, s2` and final content `r2`. -/
theorem C3_reasoner_aggregation_witness :
    (ReasonerEngine.Execute steadyWorld "REASON" 1 c3Payload).1
      = .ok { c3Payload with reasoningChain := ["s1", "s2"], intermContent := "r2" } := by
  have h := C3_reasoner_aggregation steadyWorld "REASON" 1 c3Payload "REASON"
      [some (mkResponse "r1" ["s1"]), some (mkResponse "r2" ["s2"])]
      rfl rfl rfl rfl (by decide) (by decide)
  exact h

/-- The JSON round-trip of `filterDisabledParams` is the identity on the
request: a field whose key survives deletion is re-assigned its own
value, and a field whose key was deleted is left at its previous value by
Go's merge semantics of `json.Unmarshal` into an existing struct. The
disabled-parameter removal therefore never clears anything from the
in-memory request. -/
theorem filterDisabledParams_id (cfg : ModelClientConfig) (req : ChatCompletionRequest) :
    ReasonerClient.filterDisabledParams cfg req = req := by
  unfold ReasonerClient.filterDisabledParams unmarshalMerge deleteParams marshalReq
  rcases req with ⟨model, messages, stream, requestID, temperature, maxTokens⟩
  simp only []
  split_ifs <;> simp_all

/-- C4. For every request sent to the Reasoner backend with disabled
parameter set `D`, none of the names in `D` is set on the
`openai.ChatCompletionRequest` handed to that backend's chat client,
regardless of whether the caller set them — provided the names in `D` are
parameter names rather than the mandatory `model` or `messages` fields
(the deployed configuration disables `temperature`, `presence_penalty`
and `frequency_penalty`). This holds because `Complete` copies only the
model and the messages into the outgoing request, every parameter field
keeping its zero value; the removal step itself is an identity
(`filterDisabledParams_id`). -/
theorem C4_disabled_params_never_reach_backend (cfg : ModelClientConfig)
    (req : ChatCompletionRequest) (name : String)
    (_hmem : name ∈ cfg.disabledParams)
    (hm1 : name ≠ "model") (hm2 : name ≠ "messages") :
    paramIsSet (ReasonerClient.buildOpenAIRequest cfg req) name = false := by
  unfold paramIsSet ReasonerClient.buildOpenAIRequest
  simp only []
  split_ifs <;> simp_all

/-- Witness for C4 with the deployed Reasoner configuration and a caller
that did set a temperature. -/
theorem C4_disabled_params_witness :
    paramIsSet (ReasonerClient.buildOpenAIRequest reasonerCfg reqWithTemp) "temperature" = false :=
  C4_disabled_params_never_reach_backend reasonerCfg reqWithTemp "temperature"
    (by decide) (by decide) (by decide)

/-- A default-parameter entry whose name is not `temperature` leaves the
temperature unchanged. -/
theorem applyDefaultParamsStep_temperature_ne (r : OpenAIRequest) (kv : String × GoValue)
    (h : kv.1 ≠ "temperature") :
    (applyDefaultParamsStep r kv).temperature = r.temperature := by
  rcases kv with ⟨k, v⟩
  unfold applyDefaultParamsStep
  rw [if_neg h]
  split_ifs
  · cases v <;> rfl
  · rfl

/-- A default-parameter entry whose name is not `max_tokens` leaves the
max-tokens unchanged. -/
theorem applyDefaultParamsStep_maxTokens_ne (r : OpenAIRequest) (kv : String × GoValue)
    (h : kv.1 ≠ "max_tokens") :
    (applyDefaultParamsStep r kv).maxTokens = r.maxTokens := by
  rcases kv with ⟨k, v⟩
  unfold applyDefaultParamsStep
  by_cases h1 : (k, v).1 = "temperature"
  · rw [if_pos h1]
    cases v <;> rfl
  · rw [if_neg h1, if_neg h]

/-- Without a `temperature` entry, default injection leaves the
temperature unchanged. -/
theorem applyDefaultParams_temperature_absent (l : List (String × GoValue)) (r : OpenAIRequest)
    (h : "temperature" ∉ l.map Prod.fst) :
    (applyDefaultParams r l).temperature = r.temperature := by
  induction l generalizing r with
  | nil => rfl
  | cons kv rest ih =>
    simp only [List.map_cons, List.mem_cons, not_or] at h
    obtain ⟨h1, h2⟩ := h
    show (applyDefaultParams (applyDefaultParamsStep r kv) rest).temperature = r.temperature
    rw [ih _ h2, applyDefaultParamsStep_temperature_ne _ _ (fun hk => h1 hk.symm)]

/-- Without a `max_tokens` entry, default injection leaves the max-tokens
unchanged. -/
theorem applyDefaultParams_maxTokens_absent (l : List (String × GoValue)) (r : OpenAIRequest)
    (h : "max_tokens" ∉ l.map Prod.fst) :
    (applyDefaultParams r l).maxTokens = r.maxTokens := by
  induction l generalizing r with
  | nil => rfl
  | cons kv rest ih =>
    simp only [List.map_cons, List.mem_cons, not_or] at h
    obtain ⟨h1, h2⟩ := h
    show (applyDefaultParams (applyDefaultParamsStep r kv) rest).maxTokens = r.maxTokens
    rw [ih _ h2, applyDefaultParamsStep_maxTokens_ne _ _ (fun hk => h1 hk.symm)]

/-- With pairwise-distinct keys (a Go map), a `temperature` entry of
dynamic type `float64` is injected. -/
theorem applyDefaultParams_temperature_mem (l : List (String × GoValue)) (r : OpenAIRequest)
    (t : Rat) (hnd : (l.map Prod.fst).Nodup)
    (hmem : ("temperature", GoValue.vFloat t) ∈ l) :
    (applyDefaultParams r l).temperature = t := by
  induction l generalizing r with
  | nil => simp at hmem
  | cons kv rest ih =>
    have hnd' : kv.1 ∉ rest.map Prod.fst ∧ (rest.map Prod.fst).Nodup := by
      simpa [List.nodup_cons] using hnd
    rcases List.mem_cons.mp hmem with heq | hmemrest
    · have hnotin : "temperature" ∉ rest.map Prod.fst := by
        have := hnd'.1
        rw [← heq] at this
        exact this
      show (applyDefaultParams (applyDefaultParamsStep r kv) rest).temperature = t
      rw [applyDefaultParams_temperature_absent _ _ hnotin, ← heq]
      rfl
    · have h1 : kv.1 ≠ "temperature" := by
        intro hk
        have hmm : "temperature" ∈ rest.map Prod.fst :=
          List.mem_map.mpr ⟨_, hmemrest, rfl⟩
        rw [hk] at hnd'
        exact hnd'.1 hmm
      exact ih _ hnd'.2 hmemrest

/-- With pairwise-distinct keys, a `max_tokens` entry of dynamic type
`int` is injected. -/
theorem applyDefaultParams_maxTokens_mem (l : List (String × GoValue)) (r : OpenAIRequest)
    (m : Int) (hnd : (l.map Prod.fst).Nodup)
    (hmem : ("max_tokens", GoValue.vInt m) ∈ l) :
    (applyDefaultParams r l).maxTokens = m := by
  induction l generalizing r with
  | nil => simp at hmem
  | cons kv rest ih =>
    have hnd' : kv.1 ∉ rest.map Prod.fst ∧ (rest.map Prod.fst).Nodup := by
      simpa [List.nodup_cons] using hnd
    rcases List.mem_cons.mp hmem with heq | hmemrest
    · have hnotin : "max_tokens" ∉ rest.map Prod.fst := by
        have := hnd'.1
        rw [← heq] at this
        exact this
      show (applyDefaultParams (applyDefaultParamsStep r kv) rest).maxTokens = m
      rw [applyDefaultParams_maxTokens_absent _ _ hnotin, ← heq]
      rfl
    · have h1 : kv.1 ≠ "max_tokens" := by
        intro hk
        have hmm : "max_tokens" ∈ rest.map Prod.fst :=
          List.mem_map.mpr ⟨_, hmemrest, rfl⟩
        rw [hk] at hnd'
        exact hnd'.1 hmm
      exact ih _ hnd'.2 hmemrest

/-- C5. For every `temperature` or `max_tokens` entry of the backend's
configured default parameters (with its expected dynamic type, as Go's
YAML loader produces), the request handed to the backend carries the
configured default when the caller left the field zero, and the caller's
value unchanged when the caller set a non-zero value — caller-supplied
non-zero values always win over defaults. -/
theorem C5_default_injection (cfg : ModelClientConfig) (req : ChatCompletionRequest)
    (hnd : (cfg.defaultParams.map Prod.fst).Nodup) :
    (∀ t, ("temperature", GoValue.vFloat t) ∈ cfg.defaultParams →
        ((req.temperature = 0 → (NormalClientOpenAI.prepareRequest cfg req).temperature = t)
         ∧ (req.temperature ≠ 0 →
              (NormalClientOpenAI.prepareRequest cfg req).temperature = req.temperature)))
    ∧ (∀ m, ("max_tokens", GoValue.vInt m) ∈ cfg.defaultParams →
        ((req.maxTokens = 0 → (NormalClientOpenAI.prepareRequest cfg req).maxTokens = m)
         ∧ (req.maxTokens ≠ 0 →
              (NormalClientOpenAI.prepareRequest cfg req).maxTokens = req.maxTokens))) := by
  constructor
  · intro t hmem
    constructor
    · intro hz
      simp only [NormalClientOpenAI.prepareRequest, hz, ne_eq, not_true_eq_false, if_false,
        ite_false]
      split_ifs <;>
        exact applyDefaultParams_temperature_mem _ _ t hnd hmem
    · intro hnz
      simp only [NormalClientOpenAI.prepareRequest, ne_eq]
      rw [if_pos hnz]
      split_ifs <;> rfl
  · intro m hmem
    constructor
    · intro hz
      simp only [NormalClientOpenAI.prepareRequest, hz, ne_eq, not_true_eq_false, if_false,
        ite_false]
      split_ifs <;>
        exact applyDefaultParams_maxTokens_mem _ _ m hnd hmem
    · intro hnz
      simp only [NormalClientOpenAI.prepareRequest, ne_eq]
      split_ifs <;> rfl

/-- Witness for C5 with the Normal backend configuration of
`configs/models.yaml` and a caller that set `temperature` to 1 but left
`max_tokens` unset: the caller's temperature wins, the configured
max-tokens default is injected. -/
theorem C5_default_injection_witness :
    (NormalClientOpenAI.prepareRequest normalCfg reqWithTemp).temperature = 1
    ∧ (NormalClientOpenAI.prepareRequest normalCfg reqWithTemp).maxTokens = 1000 := by
  have h := C5_default_injection normalCfg reqWithTemp (by decide)
  have hmemT : ("temperature", GoValue.vFloat (7 / 10)) ∈ normalCfg.defaultParams :=
    List.mem_cons_self _ _
  have hmemM : ("max_tokens", GoValue.vInt 1000) ∈ normalCfg.defaultParams :=
    List.mem_cons_of_mem _ (List.mem_cons_self _ _)
  exact ⟨(h.1 (7 / 10) hmemT).2 (by simp [reqWithTemp]), (h.2 1000 hmemM).1 rfl⟩

end DeepEmpower
